import Mathlib

/-!
Shallow embedding of the bidirectional speech-to-speech session manager
(`s2s_session_manager.py`, `s2s_events.py`) and the credential refresher
(`strands/websocket/server.py`).

Python dictionaries produced by `json.loads` are modelled as association
lists of string keys; asyncio queues as Lean lists with explicit capacity
checks mirroring `put_nowait` (raise `QueueFull` when at capacity) and the
suspending `await queue.put` (block when at capacity); coroutine effects as
explicit state passing.
-/

set_option linter.unusedVariables false
set_option maxRecDepth 8000

/-- JSON values, as produced by `json.loads` and consumed by `json.dumps`. -/
inductive Json where
  | null : Json
  | bool : Bool → Json
  | num : Int → Json
  | str : String → Json
  | arr : List Json → Json
  | obj : List (String × Json) → Json

/-- Dictionary key lookup `d[k]` / `d.get(k)` on a JSON object; `none` when the
key is absent or the value is not an object (Python raises there). -/
def getKey : Json → String → Option Json
  | .obj kvs, k => (kvs.find? (fun p => p.1 == k)).map (fun p => p.2)
  | _, _ => none

/-- Key membership test `k in d` for a JSON object. -/
def hasKey (j : Json) (k : String) : Bool :=
  match j with
  | .obj kvs => kvs.any (fun p => p.1 == k)
  | _ => false

/-- Dictionary assignment `d[k] = v` on the underlying association list:
replace in place when the key exists, append otherwise (Python insertion
order). -/
def setKeyList (kvs : List (String × Json)) (k : String) (v : Json) :
    List (String × Json) :=
  if kvs.any (fun p => p.1 == k) then
    kvs.map (fun p => if p.1 == k then (k, v) else p)
  else kvs ++ [(k, v)]

/-- Dictionary assignment `d[k] = v`; `none` when the target is not an object
(Python raises `TypeError` there). -/
def setKey : Json → String → Json → Option Json
  | .obj kvs, k, v => some (.obj (setKeyList kvs k v))
  | _, _, _ => none

/-- Lower-case hex digit of a value below 16, as used by `json.dumps`. -/
def hexDigitChar (n : Nat) : Char :=
  if n < 10 then Char.ofNat (48 + n) else Char.ofNat (87 + n)

/-- Four-digit hex rendering used in `\u....` escapes. -/
def hex4 (n : Nat) : String :=
  String.mk [hexDigitChar (n / 4096 % 16), hexDigitChar (n / 256 % 16),
    hexDigitChar (n / 16 % 16), hexDigitChar (n % 16)]

/-- Escaping of one character under `json.dumps` defaults (`ensure_ascii`):
quote, backslash, the short control escapes, `\u00..` for other controls,
and `\u....` (surrogate pairs above the BMP) for non-ASCII. -/
def escapeJsonChar (c : Char) : String :=
  if c == '"' then "\\\""
  else if c == '\\' then "\\\\"
  else if c.toNat == 8 then "\\b"
  else if c.toNat == 12 then "\\f"
  else if c == '\n' then "\\n"
  else if c == '\r' then "\\r"
  else if c == '\t' then "\\t"
  else if c.toNat < 32 then "\\u" ++ hex4 c.toNat
  else if c.toNat < 128 then String.singleton c
  else if c.toNat ≤ 65535 then "\\u" ++ hex4 c.toNat
  else
    "\\u" ++ hex4 (55296 + (c.toNat - 65536) / 1024) ++ "\\u" ++
      hex4 (56320 + (c.toNat - 65536) % 1024)

/-- String rendering under `json.dumps`. -/
def jsonQuote (s : String) : String :=
  "\"" ++ String.join (s.data.map escapeJsonChar) ++ "\""

mutual

/-- Serialisation `json.dumps(j)` with the default separators. -/
def Json.dumps : Json → String
  | .null => "null"
  | .bool true => "true"
  | .bool false => "false"
  | .num n => toString n
  | .str s => jsonQuote s
  | .arr xs => "[" ++ Json.dumpsArr xs ++ "]"
  | .obj kvs => "\x7b" ++ Json.dumpsObj kvs ++ "\x7d"

/-- Comma-separated serialisation of array elements. -/
def Json.dumpsArr : List Json → String
  | [] => ""
  | [x] => Json.dumps x
  | x :: y :: rest => Json.dumps x ++ ", " ++ Json.dumpsArr (y :: rest)

/-- Comma-separated serialisation of object entries. -/
def Json.dumpsObj : List (String × Json) → String
  | [] => ""
  | [(k, v)] => jsonQuote k ++ ": " ++ Json.dumps v
  | (k, v) :: p :: rest =>
      jsonQuote k ++ ": " ++ Json.dumps v ++ ", " ++ Json.dumpsObj (p :: rest)

end

/-- Substring check on character lists, for the Python `needle in hay` test
on strings. -/
def listContainsSub (hay needle : List Char) : Bool :=
  match hay with
  | [] => needle.isEmpty
  | _ :: t => needle.isPrefixOf hay || listContainsSub t needle

/-- Python substring containment `needle in hay`. -/
def strContains (hay needle : String) : Bool :=
  listContainsSub hay.data needle.data

/-- Event builder `S2sEvent.content_start_tool` from `s2s_events.py`. -/
def S2sEvent.content_start_tool (prompt_name content_name tool_use_id : Json) :
    Json :=
  .obj [("event", .obj [("contentStart", .obj [
    ("promptName", prompt_name),
    ("contentName", content_name),
    ("interactive", .bool false),
    ("type", .str "TOOL"),
    ("role", .str "TOOL"),
    ("toolResultInputConfiguration", .obj [
      ("toolUseId", tool_use_id),
      ("type", .str "TEXT"),
      ("textInputConfiguration", .obj [("mediaType", .str "text/plain")])])])])]

/-- Event builder `S2sEvent.text_input_tool` from `s2s_events.py`. -/
def S2sEvent.text_input_tool (prompt_name content_name content : Json) : Json :=
  .obj [("event", .obj [("toolResult", .obj [
    ("promptName", prompt_name),
    ("contentName", content_name),
    ("content", content)])])]

/-- Event builder `S2sEvent.content_end` from `s2s_events.py`. -/
def S2sEvent.content_end (prompt_name content_name : Json) : Json :=
  .obj [("event", .obj [("contentEnd", .obj [
    ("promptName", prompt_name),
    ("contentName", content_name)])])]

/-- Event builder `S2sEvent.session_end` from `s2s_events.py`. -/
def S2sEvent.session_end : Json :=
  .obj [("event", .obj [("sessionEnd", .obj [])])]

/-- One record on the audio input queue, as built by `add_audio_chunk`. -/
structure AudioChunk where
  prompt_name : String
  content_name : String
  audio_bytes : String
deriving DecidableEq

/-- Arguments of one spawned `_handle_tool_processing` task. -/
structure ToolDispatchArgs where
  prompt_name : Json
  tool_name : Json
  tool_use_content : Json
  tool_use_id : Json

/-- Mutable state of one `S2sSessionManager` (`__init__`). Queues are lists
with the front at the head; `stream` and `response_task` are presence
markers for the backend stream handle and the Egress Pump task. -/
structure SessionState where
  audio_input_queue : List AudioChunk
  output_queue : List Json
  response_task : Option Unit
  stream : Option Unit
  is_active : Bool
  prompt_name : Option String
  content_name : Option String
  audio_content_name : Option String
  toolUseContent : Json
  toolUseId : Json
  toolName : Json
  tool_processing_tasks : List ToolDispatchArgs

/-- The state set up by `S2sSessionManager.__init__`. -/
def SessionState.init : SessionState :=
  { audio_input_queue := []
    output_queue := []
    response_task := none
    stream := none
    is_active := false
    prompt_name := none
    content_name := none
    audio_content_name := none
    toolUseContent := .str ""
    toolUseId := .str ""
    toolName := .str ""
    tool_processing_tasks := [] }

/-- Method `close` (lines 413-473): early return when `is_active` is already
false; otherwise cancel and clear the tool tasks, drain both queues, reset
the tool-use record and correlation names, close and null the stream, and
cancel the response task. -/
def close (s : SessionState) : SessionState :=
  if !s.is_active then s
  else
    { s with
      is_active := false
      tool_processing_tasks := []
      audio_input_queue := []
      output_queue := []
      toolUseContent := .str ""
      toolUseId := .str ""
      toolName := .str ""
      prompt_name := none
      content_name := none
      audio_content_name := none
      stream := none
      response_task := none }

/-- Method `reset_session_state` (lines 76-105): cancel and clear tool tasks,
drain both queues, reset the tool-use record and correlation names. It does
not touch `is_active`, `stream` or `response_task`. -/
def reset_session_state (s : SessionState) : SessionState :=
  { s with
    tool_processing_tasks := []
    audio_input_queue := []
    output_queue := []
    toolUseContent := .str ""
    toolUseId := .str ""
    toolName := .str ""
    prompt_name := none
    content_name := none
    audio_content_name := none }

/-- Tail of `_process_responses` (lines 321-323): when the receive loop
exits, set `is_active` to false and then call `close`. -/
def pump_loop_exit (s : SessionState) : SessionState :=
  close { s with is_active := false }

/-- Method `add_audio_chunk` (lines 203-220): `put_nowait` of the record on
the 100-capacity audio queue; when the queue is full the chunk is dropped
(log only). -/
def add_audio_chunk (s : SessionState) (pn cn audio : String) : SessionState :=
  if s.audio_input_queue.length < 100 then
    { s with audio_input_queue :=
        s.audio_input_queue ++ [⟨pn, cn, audio⟩] }
  else s

/-- Iterated `add_audio_chunk` over a list of chunks, counting the drops. -/
def add_audio_chunks (s : SessionState) : List AudioChunk → SessionState × Nat
  | [] => (s, 0)
  | c :: rest =>
    if s.audio_input_queue.length < 100 then
      add_audio_chunks
        { s with audio_input_queue := s.audio_input_queue ++ [c] } rest
    else
      let (s', d) := add_audio_chunks s rest
      (s', d + 1)

/-- Method `send_raw_event` (lines 144-166): return silently when the stream
is unset or the session inactive; otherwise JSON-encode and send the
envelope, then run `close` when `"sessionEnd" in event_data["event"]`. The
second component lists the envelopes written to the backend input stream.
A missing `"event"` key or a non-container value raises inside the `try`
and is swallowed after the send. -/
def send_raw_event (s : SessionState) (event_data : Json) :
    SessionState × List Json :=
  if s.stream.isNone || !s.is_active then (s, [])
  else
    match getKey event_data "event" with
    | some (.obj kvs) =>
        if kvs.any (fun p => p.1 == "sessionEnd") then (close s, [event_data])
        else (s, [event_data])
    | some (.str t) =>
        if strContains t "sessionEnd" then (close s, [event_data])
        else (s, [event_data])
    | some (.arr xs) =>
        if xs.any (fun x => match x with
            | .str t => t == "sessionEnd"
            | _ => false) then (close s, [event_data])
        else (s, [event_data])
    | _ => (s, [event_data])

/-- Outcome of decoding one received chunk's bytes (lines 230-233):
`json` when UTF-8 decoding and `json.loads` both succeed, `badJson` with the
decoded text when `json.loads` raises `JSONDecodeError`, `badUtf8` with the
codec's error message when `bytes.decode("utf-8")` raises
`UnicodeDecodeError` (which is not a `JSONDecodeError`). -/
inductive DecodeOutcome where
  | json : Json → DecodeOutcome
  | badJson : String → DecodeOutcome
  | badUtf8 : String → DecodeOutcome

/-- Outcome of one `await output[1].receive()` step of the Egress Pump
(lines 226-229): a chunk with non-empty bytes, a falsy value or empty bytes
(the body is skipped), the `StopAsyncIteration` end-of-stream signal, or any
other exception with its message `str(e)`. -/
inductive RecvOutcome where
  | value : DecodeOutcome → RecvOutcome
  | noValue : RecvOutcome
  | stopIter : RecvOutcome
  | exn : String → RecvOutcome

/-- Result of one Egress Pump loop iteration: `cont` to the next iteration
(with the tasks spawned this iteration and whether the `put_nowait` dropped
the record on a full queue), `blocked` when an `await output_queue.put` on a
full 200-capacity queue suspends against a stalled consumer, or `exit`
when the loop breaks. -/
inductive StepResult where
  | cont : SessionState → List ToolDispatchArgs → Bool → StepResult
  | blocked : SessionState → StepResult
  | exit : SessionState → StepResult

/-- The record `{"raw_data": text}` enqueued on a JSON decode failure
(line 293). -/
def rawDataRecord (text : String) : Json :=
  .obj [("raw_data", .str text)]

/-- The error envelope enqueued on a backend validation error
(lines 306-312). -/
def validationErrorRecord (msg : String) : Json :=
  .obj [("event", .obj [("error", .obj [
    ("message", .str ("Validation error: " ++ msg))])])]

/-- Event-name dispatch of `_process_responses` (lines 238-277) on the
timestamped record: on `toolUse` store the pending tool-use record; on
`contentEnd` with `type == "TOOL"` spawn a `_handle_tool_processing` task
with the current record and track it in `tool_processing_tasks`. The second
component is `none` when the body raises (empty event dict, missing
`toolName`/`toolUseId` key, or a non-dict where one is indexed), with the
first component the partially mutated state at that point; the generic
handler of the loop then sees the exception. -/
def dispatch_event (s : SessionState) (j : Json) :
    SessionState × Option (List ToolDispatchArgs) :=
  match getKey j "event" with
  | none => (s, some [])
  | some ev =>
    match ev with
    | .obj [] => (s, none)
    | .obj ((k, v) :: _) =>
      if k == "toolUse" then
        match v with
        | .obj _ =>
          match getKey v "toolName" with
          | none => ({ s with toolUseContent := v }, none)
          | some tn =>
            match getKey v "toolUseId" with
            | none => ({ s with toolUseContent := v, toolName := tn }, none)
            | some tid =>
              ({ s with
                  toolUseContent := v
                  toolName := tn
                  toolUseId := tid }, some [])
        | _ => ({ s with toolUseContent := v }, none)
      else if k == "contentEnd" then
        match v with
        | .obj _ =>
          if (match getKey v "type" with
              | some (.str t) => t == "TOOL"
              | _ => false) then
            let args : ToolDispatchArgs :=
              { prompt_name := (getKey v "promptName").getD .null
                tool_name := s.toolName
                tool_use_content := s.toolUseContent
                tool_use_id := s.toolUseId }
            ({ s with tool_processing_tasks :=
                s.tool_processing_tasks ++ [args] }, some [args])
          else (s, some [])
        | _ => (s, none)
      else (s, some [])
    | _ => (s, none)

/-- Generic exception handler of the Egress Pump (lines 300-319): when the
message contains `ValidationException`, enqueue the error envelope via the
suspending `await output_queue.put` and continue; otherwise break. -/
def handle_pump_exn (s : SessionState) (msg : String) : StepResult :=
  if strContains msg "ValidationException" then
    if s.output_queue.length < 200 then
      .cont { s with output_queue :=
          s.output_queue ++ [validationErrorRecord msg] } [] false
    else .blocked s
  else .exit s

/-- One iteration of the `_process_responses` loop (lines 224-319) on the
given receive outcome, with `ts` the value of `int(time.time() * 1000)`.
The decoded record is timestamped, dispatched, then enqueued with
`put_nowait` (drop the record on a full queue and continue); a JSON decode
failure enqueues `{"raw_data": text}` via the suspending `await put` and
continues; `UnicodeDecodeError` and other exceptions reach the generic
handler, which only survives `ValidationException` messages. -/
def process_response_step (s : SessionState) (r : RecvOutcome) (ts : Int) :
    StepResult :=
  match r with
  | .noValue => .cont s [] false
  | .stopIter => .exit s
  | .exn msg => handle_pump_exn s msg
  | .value (.badUtf8 msg) => handle_pump_exn s msg
  | .value (.badJson text) =>
    if s.output_queue.length < 200 then
      .cont { s with output_queue := s.output_queue ++ [rawDataRecord text] }
        [] false
    else .blocked s
  | .value (.json j) =>
    match setKey j "timestamp" (.num ts) with
    | none => .exit s
    | some j' =>
      match dispatch_event s j' with
      | (s1, none) => .exit s1
      | (s1, some spawned) =>
        if s1.output_queue.length < 200 then
          .cont { s1 with output_queue := s1.output_queue ++ [j'] } spawned
            false
        else .cont s1 spawned true

/-- Run of the Egress Pump over a list of receive outcomes with their
timestamps, while the consumer of the egress queue is stalled (nothing is
dequeued); collects all spawned tool-dispatch tasks and stops at a break or
at a suspended blocking put. -/
def run_pump : SessionState → List (RecvOutcome × Int) →
    SessionState × List ToolDispatchArgs
  | s, [] => (s, [])
  | s, (r, ts) :: rest =>
    match process_response_step s r ts with
    | .cont s' spawned _ =>
      let (s'', sps) := run_pump s' rest
      (s'', spawned ++ sps)
    | .blocked s' => (s', [])
    | .exit s' => (s', [])

/-- The fixed handler-failure result string of `processToolUse`
(lines 409-411). -/
def toolErrorResult : String :=
  "An error occurred while attempting to retrieve information related to the toolUse event."

/-- Method `processToolUse` (lines 377-411) with `dateStr` standing for the
`datetime.now(timezone.utc).strftime(...)` output. `toolName.lower()` runs
before the `try`, so a non-string tool name raises out of the method
(`none`); inside the `try`, a `toolUseContent` without a `.get` method
raises and yields the fixed error result; otherwise the `getdatetool`
handler or the `"no result found"` fallback answers, wrapped as
`{"result": ...}`. -/
def processToolUse (tname tcontent : Json) (dateStr : String) : Option Json :=
  match tname with
  | .str n =>
    some (match tcontent with
      | .obj _ =>
        .obj [("result", .str
          (if n.toLower == "getdatetool" then dateStr ++ " in UTC"
           else "no result found"))]
      | _ => .obj [("result", .str toolErrorResult)])
  | _ => none

/-- Suspending `await output_queue.put(j)` against a stalled consumer:
append below the 200 capacity, suspend (`none`) at capacity. -/
def put_blocking (s : SessionState) (j : Json) : Option SessionState :=
  if s.output_queue.length < 200 then
    some { s with output_queue := s.output_queue ++ [j] }
  else none

/-- Method `_handle_tool_processing` (lines 325-375), with `uuid` the fresh
`str(uuid.uuid4())`, `t1 t2 t3` the three `int(time.time() * 1000)` reads,
and `dateStr` as in `processToolUse`. Runs the handler, then emits the
`contentStart(TOOL)`, `toolResult` and `contentEnd` envelopes, each sent to
the backend via `send_raw_event` and also enqueued on the egress queue as a
copy with a refreshed `timestamp`. The handler result is JSON-stringified
when it is a dict. Any exception is swallowed (the non-string tool-name
case raises before the first send); `none` marks a suspended blocking put
on a full queue. The second component lists the envelopes written to the
backend. -/
def handle_tool_processing (s0 : SessionState)
    (pn tname tcontent tid : Json) (uuid : String) (t1 t2 t3 : Int)
    (dateStr : String) : Option (SessionState × List Json) :=
  match processToolUse tname tcontent dateStr with
  | none => some (s0, [])
  | some toolResult =>
    let toolContent : Json := .str uuid
    let e1 := S2sEvent.content_start_tool pn toolContent tid
    let (s1, out1) := send_raw_event s0 e1
    match setKey e1 "timestamp" (.num t1) with
    | none => some (s1, out1)
    | some c1 =>
      match put_blocking s1 c1 with
      | none => none
      | some s2 =>
        let content_json_string : Json :=
          match toolResult with
          | .obj kvs => .str (Json.dumps (.obj kvs))
          | other => other
        let e2 := S2sEvent.text_input_tool pn toolContent content_json_string
        let (s3, out2) := send_raw_event s2 e2
        match setKey e2 "timestamp" (.num t2) with
        | none => some (s3, out1 ++ out2)
        | some c2 =>
          match put_blocking s3 c2 with
          | none => none
          | some s4 =>
            let e3 := S2sEvent.content_end pn toolContent
            let (s5, out3) := send_raw_event s4 e3
            match setKey e3 "timestamp" (.num t3) with
            | none => some (s5, out1 ++ out2 ++ out3)
            | some c3 =>
              match put_blocking s5 c3 with
              | none => none
              | some s6 => some (s6, out1 ++ out2 ++ out3)

/-- Outcome of one iteration of `refresh_credentials_from_imds`
(`strands/websocket/server.py`, lines 93-131): a successful IMDS fetch with
the parsed `(expiration - now).total_seconds()` (or `none` when parsing the
expiry raises), or a failed fetch (the `success == False` branch and the
generic exception handler both sleep 300 s). -/
inductive FetchOutcome where
  | success : Option Int → FetchOutcome
  | failure : FetchOutcome

/-- Seconds slept by `refresh_credentials_from_imds` after one iteration:
`min(max(time_until_expiration - 300, 60), 3600)` on success, 3600 when the
expiry cannot be parsed, 300 on failure. -/
def refresh_sleep_seconds : FetchOutcome → Int
  | .success (some timeUntilExpiration) =>
      min (max (timeUntilExpiration - 300) 60) 3600
  | .success none => 3600
  | .failure => 300

/-- Session state carried by a step result, for stating queue invariants. -/
def StepResult.state : StepResult → SessionState
  | .cont s _ _ => s
  | .blocked s => s
  | .exit s => s

/-- The `contentName` field of the first event payload of an envelope. -/
def eventContentName (j : Json) : Option Json :=
  match getKey j "event" with
  | some (.obj ((_, v) :: _)) => getKey v "contentName"
  | _ => none

/-- Copy of an envelope with a refreshed top-level `timestamp`, as built for
the egress-queue copies of the tool-dispatch events (lines 344-345). -/
def withTimestamp (e : Json) (t : Int) : Json :=
  (setKey e "timestamp" (.num t)).getD e

/-- Concrete inbound `toolUse` envelope shape with payload `v`. -/
def toolUseEnvelope (v : Json) : Json :=
  .obj [("event", .obj [("toolUse", v)])]

/-- Concrete inbound `contentEnd` envelope of type `TOOL` with the given
`promptName`. -/
def contentEndToolEnvelope (pnj : Json) : Json :=
  .obj [("event", .obj [("contentEnd", .obj [
    ("type", .str "TOOL"), ("promptName", pnj)])])]

/-- A session state right after a successful `initialize_stream`: active,
with a backend stream and a response task. -/
def activeSessionState : SessionState :=
  { SessionState.init with
      is_active := true
      stream := some ()
      response_task := some () }

/-- A session state as left behind when the Egress Pump loop has already set
`is_active` to false: the stream handle, queues and tool tasks are still
populated but the session is no longer active. -/
def stalePumpState : SessionState :=
  { SessionState.init with
      is_active := true
      stream := some ()
      response_task := some ()
      output_queue := [Json.null]
      audio_input_queue := [⟨"p", "c", "a"⟩]
      toolName := Json.str "getDateTool"
      tool_processing_tasks :=
        [⟨Json.str "p", Json.str "getDateTool", Json.obj [], Json.str "t1"⟩] }

/-- An active session state whose egress queue is at its 200 capacity. -/
def fullQueueState : SessionState :=
  { activeSessionState with output_queue := List.replicate 200 Json.null }

/-- Helper: `add_audio_chunks` from a queue of length at most 100 ends at
length `min (start + n) 100` and drops exactly the overflow. -/
theorem add_audio_chunks_len_drops (cs : List AudioChunk) (s : SessionState)
    (h : s.audio_input_queue.length ≤ 100) :
    (add_audio_chunks s cs).1.audio_input_queue.length =
      min (s.audio_input_queue.length + cs.length) 100 ∧
    (add_audio_chunks s cs).2 =
      s.audio_input_queue.length + cs.length -
        min (s.audio_input_queue.length + cs.length) 100 := by
  induction cs generalizing s with
  | nil =>
    simp [add_audio_chunks]
    omega
  | cons c rest ih =>
    by_cases hlt : s.audio_input_queue.length < 100
    · have := ih { s with audio_input_queue := s.audio_input_queue ++ [c] }
        (by simp; omega)
      simp [add_audio_chunks, hlt] at this ⊢
      omega
    · have := ih s h
      simp [add_audio_chunks, hlt]
      omega

/-- C9: when the stream is unset or the session inactive, `send_raw_event`
returns without writing to the backend stream and leaves the whole session
state unchanged. -/
theorem send_event_inactive_is_noop (s : SessionState) (ev : Json)
    (h : s.stream = none ∨ s.is_active = false) :
    send_raw_event s ev = (s, []) := by
  unfold send_raw_event
  rcases h with h | h <;> simp [h]

/-- Witness for C9 at the freshly initialised session state. -/
theorem send_event_inactive_is_noop_witness :
    send_raw_event SessionState.init S2sEvent.session_end =
      (SessionState.init, []) :=
  send_event_inactive_is_noop SessionState.init S2sEvent.session_end
    (Or.inl rfl)

/-- C7: after a successful credential fetch with parsed time-to-expiry
`E - now`, the refresher sleeps `min (max (E - now - 300) 60) 3600` seconds;
after a failed fetch it sleeps exactly 300 seconds. -/
theorem credential_refresh_schedule (E now : Int) :
    refresh_sleep_seconds (.success (some (E - now))) =
      min (max (E - now - 300) 60) 3600 ∧
    refresh_sleep_seconds .failure = 300 :=
  ⟨rfl, rfl⟩

/-- C1 counterexample: invoking `close` immediately after the Egress Pump
loop has exited (which sets `active` to false first, lines 321-323) is the
early-return path, so the stream handle, the egress queue and the tool-task
set all survive `close`, contradicting the claimed postcondition. -/
theorem close_after_pump_exit_cex :
    (pump_loop_exit stalePumpState).stream = some () ∧
    (pump_loop_exit stalePumpState).output_queue = [Json.null] ∧
    (pump_loop_exit stalePumpState).tool_processing_tasks ≠ [] := by
  refine ⟨rfl, rfl, ?_⟩
  simp [pump_loop_exit, close, stalePumpState, SessionState.init]

/-- C1 amended: when `close` is invoked from a state with `active = true` it
clears the tool tasks, drains both queues, nulls the correlation names and
the tool-use record, and sets `stream = nil`; a subsequent `close` is a
no-op. When `active` is already false, `close` returns immediately without
cleaning up. -/
theorem close_from_active_cleans (s : SessionState) (h : s.is_active = true) :
    (close s).tool_processing_tasks = [] ∧
    (close s).audio_input_queue = [] ∧
    (close s).output_queue = [] ∧
    (close s).prompt_name = none ∧
    (close s).content_name = none ∧
    (close s).audio_content_name = none ∧
    (close s).toolUseContent = .str "" ∧
    (close s).toolUseId = .str "" ∧
    (close s).toolName = .str "" ∧
    (close s).stream = none ∧
    (close s).is_active = false ∧
    close (close s) = close s := by
  simp [close, h]

/-- Witness for C1 (amended) at a freshly initialised active session. -/
theorem close_from_active_cleans_witness :
    (close activeSessionState).stream = none ∧
    close (close activeSessionState) = close activeSessionState :=
  ⟨(close_from_active_cleans activeSessionState rfl).2.2.2.2.2.2.2.2.2.1,
   (close_from_active_cleans activeSessionState rfl).2.2.2.2.2.2.2.2.2.2.2⟩

/-- C4: `add_audio_chunk` never grows the ingress queue beyond 100; at
capacity each further chunk is dropped leaving the state unchanged; and over
any call sequence from a fresh session the final length is
`min n 100` with exactly `n - min n 100` chunks dropped. -/
theorem enqueue_audio_bounded_drop (s : SessionState) (pn cn a : String)
    (cs : List AudioChunk) (h : s.audio_input_queue.length ≤ 100) :
    (add_audio_chunk s pn cn a).audio_input_queue.length ≤ 100 ∧
    (s.audio_input_queue.length = 100 → add_audio_chunk s pn cn a = s) ∧
    (add_audio_chunks SessionState.init cs).1.audio_input_queue.length =
      min cs.length 100 ∧
    (add_audio_chunks SessionState.init cs).2 =
      cs.length - min cs.length 100 := by
  have base := add_audio_chunks_len_drops cs SessionState.init (by simp [SessionState.init])
  refine ⟨?_, ?_, ?_, ?_⟩
  · by_cases hlt : s.audio_input_queue.length < 100 <;>
      simp [add_audio_chunk, hlt] <;> omega
  · intro h100
    simp [add_audio_chunk, h100]
  · simpa [SessionState.init] using base.1
  · simpa [SessionState.init] using base.2

/-- Witness for C4: 150 chunks into a fresh session leave 100 on the queue
and drop 50. -/
theorem enqueue_audio_bounded_drop_witness :
    (add_audio_chunks SessionState.init
        (List.replicate 150 ⟨"p", "c", "a"⟩)).1.audio_input_queue.length =
      min (List.replicate 150 (⟨"p", "c", "a"⟩ : AudioChunk)).length 100 ∧
    (add_audio_chunks SessionState.init
        (List.replicate 150 ⟨"p", "c", "a"⟩)).2 =
      (List.replicate 150 (⟨"p", "c", "a"⟩ : AudioChunk)).length -
        min (List.replicate 150 (⟨"p", "c", "a"⟩ : AudioChunk)).length 100 :=
  ⟨(enqueue_audio_bounded_drop SessionState.init "p" "c" "a"
      (List.replicate 150 ⟨"p", "c", "a"⟩) (by simp [SessionState.init])).2.2.1,
   (enqueue_audio_bounded_drop SessionState.init "p" "c" "a"
      (List.replicate 150 ⟨"p", "c", "a"⟩) (by simp [SessionState.init])).2.2.2⟩

/-- C8: sending a `sessionEnd` envelope on an active session writes the
envelope to the backend input stream and then runs `close`; the resulting
state is inactive with `stream = nil`, so every later `send_event` writes
nothing — the `sessionEnd` envelope is the last event on the backend input
stream. -/
theorem session_end_is_last_send (s : SessionState) (ev : Json)
    (kvs : List (String × Json))
    (hact : s.is_active = true) (hstr : s.stream = some ())
    (hev : getKey ev "event" = some (.obj kvs))
    (hse : kvs.any (fun p => p.1 == "sessionEnd") = true) :
    send_raw_event s ev = (close s, [ev]) ∧
    (close s).is_active = false ∧
    (close s).stream = none ∧
    ∀ ev2, (send_raw_event (close s) ev2).2 = [] := by
  have hcl : (close s).is_active = false := by simp [close, hact]
  refine ⟨?_, hcl, by simp [close, hact], ?_⟩
  · unfold send_raw_event
    simp [hstr, hact, hev, hse]
  · intro ev2
    unfold send_raw_event
    simp [hcl]

/-- Witness for C8 at an active session sending `S2sEvent.session_end`. -/
theorem session_end_is_last_send_witness :
    send_raw_event activeSessionState S2sEvent.session_end =
      (close activeSessionState, [S2sEvent.session_end]) :=
  (session_end_is_last_send activeSessionState S2sEvent.session_end
    [("sessionEnd", .obj [])] rfl rfl rfl (by decide)).1

/-- C6: a backend receive error whose message contains
`ValidationException` makes the Egress Pump enqueue the
`Validation error: ...` envelope on the egress queue (here with room on the
queue, since line 306 is a suspending put) and continue the loop with
`is_active` untouched, so the next inbound event is still processed. -/
theorem validation_error_continues (s : SessionState) (msg : String)
    (ts : Int)
    (hv : strContains msg "ValidationException" = true)
    (hq : s.output_queue.length < 200) :
    process_response_step s (.exn msg) ts =
      .cont { s with output_queue :=
          s.output_queue ++ [validationErrorRecord msg] } [] false ∧
    validationErrorRecord msg =
      .obj [("event", .obj [("error", .obj [
        ("message", .str ("Validation error: " ++ msg))])])] ∧
    ({ s with output_queue :=
        s.output_queue ++ [validationErrorRecord msg] } :
      SessionState).is_active = s.is_active := by
  refine ⟨?_, rfl, rfl⟩
  simp [process_response_step, handle_pump_exn, hv, hq]

/-- Witness for C6 on an active session with an empty egress queue. -/
theorem validation_error_continues_witness :
    process_response_step activeSessionState
        (.exn "ValidationException: invalid audio format") 7 =
      .cont { activeSessionState with output_queue :=
          activeSessionState.output_queue ++
            [validationErrorRecord
              "ValidationException: invalid audio format"] } [] false :=
  (validation_error_continues activeSessionState
    "ValidationException: invalid audio format" 7 (by decide)
    (by simp [activeSessionState, SessionState.init])).1

/-- Helper: the event-name dispatch never touches the egress queue. -/
theorem dispatch_event_queue_eq (s : SessionState) (j : Json) :
    (dispatch_event s j).1.output_queue = s.output_queue := by
  unfold dispatch_event
  repeat' split <;> try rfl


/-- Helper: the generic exception handler keeps the egress queue within its
200 capacity. -/
theorem handle_pump_exn_queue_le (s : SessionState) (msg : String)
    (h : s.output_queue.length ≤ 200) :
    (handle_pump_exn s msg).state.output_queue.length ≤ 200 := by
  by_cases hv : strContains msg "ValidationException"
  · by_cases hlt : s.output_queue.length < 200
    · simp [handle_pump_exn, hv, hlt, StepResult.state]
      omega
    · simp [handle_pump_exn, hv, hlt, StepResult.state]
      exact h
  · simp [handle_pump_exn, hv, StepResult.state]
    exact h

/-- Helper: one Egress Pump iteration keeps the egress queue within its 200
capacity, whatever the receive outcome. -/
theorem step_queue_len_le (s : SessionState) (r : RecvOutcome) (ts : Int)
    (h : s.output_queue.length ≤ 200) :
    (process_response_step s r ts).state.output_queue.length ≤ 200 := by
  cases r with
  | noValue => simpa [process_response_step, StepResult.state] using h
  | stopIter => simpa [process_response_step, StepResult.state] using h
  | exn msg => exact handle_pump_exn_queue_le s msg h
  | value d =>
    cases d with
    | badUtf8 msg => exact handle_pump_exn_queue_le s msg h
    | badJson text =>
      by_cases hlt : s.output_queue.length < 200
      · simp [process_response_step, hlt, StepResult.state]
        omega
      · simp [process_response_step, hlt, StepResult.state]
        exact h
    | json j =>
      cases hsk : setKey j "timestamp" (.num ts) with
      | none =>
        simpa [process_response_step, hsk, StepResult.state] using h
      | some j' =>
        have hq1 := dispatch_event_queue_eq s j'
        cases hd : dispatch_event s j' with
        | mk s1 osp =>
          rw [hd] at hq1
          simp only at hq1
          have hlen : s1.output_queue.length = s.output_queue.length := by
            rw [hq1]
          cases osp with
          | none =>
            simp [process_response_step, hsk, hd, StepResult.state, hq1]
            exact h
          | some sp =>
            by_cases hlt : s1.output_queue.length < 200
            · simp [process_response_step, hsk, hd, hlt, StepResult.state]
              omega
            · simp [process_response_step, hsk, hd, hlt, StepResult.state]
              omega

/-- Helper: a stalled-consumer run of the Egress Pump keeps the egress
queue within its 200 capacity. -/
theorem run_pump_queue_le (inputs : List (RecvOutcome × Int))
    (s : SessionState) (h : s.output_queue.length ≤ 200) :
    (run_pump s inputs).1.output_queue.length ≤ 200 := by
  induction inputs generalizing s with
  | nil => simpa [run_pump] using h
  | cons p rest ih =>
    obtain ⟨r, ts⟩ := p
    have hstep := step_queue_len_le s r ts h
    cases hs : process_response_step s r ts with
    | cont s' sp dr =>
      rw [hs] at hstep
      simp only [StepResult.state] at hstep
      have hrec := ih s' hstep
      cases hr : run_pump s' rest with
      | mk s2 sps =>
        rw [hr] at hrec
        simp [run_pump, hs, hr]
        exact hrec
    | blocked s' =>
      rw [hs] at hstep
      simp only [StepResult.state] at hstep
      simp [run_pump, hs]
      exact hstep
    | exit s' =>
      rw [hs] at hstep
      simp only [StepResult.state] at hstep
      simp [run_pump, hs]
      exact hstep

/-- C3 counterexample: a JSON decode failure with the egress queue at its
200 capacity suspends the Egress Pump on the blocking put of line 293
instead of dropping the newest record and continuing. -/
theorem egress_blocking_put_cex :
    process_response_step fullQueueState (.value (.badJson "not json")) 0 =
      .blocked fullQueueState := by
  have h : ¬ fullQueueState.output_queue.length < 200 := by
    simp [fullQueueState]
  simp [process_response_step, h]

/-- C3 amended: the egress queue never exceeds 200 entries on any pump path
(single step and stalled-consumer run), and the main enqueue path of
decoded backend events never suspends — on a full queue it drops the newest
record and continues receiving; the decode-failure and error-envelope
(and tool-copy) enqueue paths use a suspending put instead of dropping. -/
theorem egress_queue_bound_and_drop :
    (∀ s r ts, s.output_queue.length ≤ 200 →
      (process_response_step s r ts).state.output_queue.length ≤ 200) ∧
    (∀ s inputs, s.output_queue.length ≤ 200 →
      (run_pump s inputs).1.output_queue.length ≤ 200) ∧
    (∀ s j ts s', process_response_step s (.value (.json j)) ts ≠
      .blocked s') ∧
    (∀ s j ts j' s1 sp, s.output_queue.length = 200 →
      setKey j "timestamp" (.num ts) = some j' →
      dispatch_event s j' = (s1, some sp) →
      process_response_step s (.value (.json j)) ts = .cont s1 sp true) := by
  refine ⟨fun s r ts h => step_queue_len_le s r ts h,
    fun s inputs h => run_pump_queue_le inputs s h, ?_, ?_⟩
  · intro s j ts s'
    cases hsk : setKey j "timestamp" (.num ts) with
    | none => simp [process_response_step, hsk]
    | some j' =>
      cases hd : dispatch_event s j' with
      | mk s1 osp =>
        cases osp with
        | none => simp [process_response_step, hsk, hd]
        | some sp =>
          by_cases hlt : s1.output_queue.length < 200 <;>
            simp [process_response_step, hsk, hd, hlt]
  · intro s j ts j' s1 sp h200 hsk hd
    have hq1 := dispatch_event_queue_eq s j'
    rw [hd] at hq1
    simp only at hq1
    have hnlt : ¬ s1.output_queue.length < 200 := by
      rw [hq1]
      omega
    simp [process_response_step, hsk, hd, hnlt]

/-- Witness for C3 (amended) at the full-queue state. -/
theorem egress_queue_bound_and_drop_witness :
    (process_response_step fullQueueState (.value (.badJson "x"))
        0).state.output_queue.length ≤ 200 :=
  egress_queue_bound_and_drop.1 fullQueueState (.value (.badJson "x")) 0
    (by simp [fullQueueState])

/-- C5 counterexample: a chunk whose bytes are not valid UTF-8 raises
`UnicodeDecodeError`, which is not a `json.JSONDecodeError`, so it reaches
the generic handler and the Egress Pump exits its loop without enqueuing
any `raw_data` record. -/
theorem bad_utf8_exits_cex :
    process_response_step activeSessionState
      (.value (.badUtf8
        "utf-8 codec cannot decode byte 0xff in position 0: invalid start byte"))
      0 = .exit activeSessionState := by
  have h : strContains
      "utf-8 codec cannot decode byte 0xff in position 0: invalid start byte"
      "ValidationException" = false := by decide
  simp [process_response_step, handle_pump_exn, h]

/-- C5 amended: on a chunk that decodes as UTF-8 text but fails JSON
parsing, the pump enqueues `{raw_data: text}` (a suspending put, here with
room on the queue) and continues; on a chunk whose bytes are not valid
UTF-8, the `UnicodeDecodeError` escapes the JSON-decode handler and the
pump exits the loop. -/
theorem decode_failure_paths (s : SessionState) (text msg : String)
    (ts ts2 : Int) (hq : s.output_queue.length < 200)
    (hm : strContains msg "ValidationException" = false) :
    process_response_step s (.value (.badJson text)) ts =
      .cont { s with output_queue :=
          s.output_queue ++ [rawDataRecord text] } [] false ∧
    rawDataRecord text = .obj [("raw_data", .str text)] ∧
    process_response_step s (.value (.badUtf8 msg)) ts2 = .exit s := by
  refine ⟨?_, rfl, ?_⟩
  · simp [process_response_step, hq]
  · simp [process_response_step, handle_pump_exn, hm]

/-- Witness for C5 (amended) on an active session with an empty queue. -/
theorem decode_failure_paths_witness :
    process_response_step activeSessionState
        (.value (.badJson "not json")) 3 =
      .cont { activeSessionState with output_queue :=
          activeSessionState.output_queue ++
            [rawDataRecord "not json"] } [] false :=
  (decode_failure_paths activeSessionState "not json"
    "utf-8 codec cannot decode byte 0x80 in position 2: invalid start byte"
    3 4 (by simp [activeSessionState, SessionState.init]) (by decide)).1

/-- C2: for an active session with room on the egress queue, the Tool
Dispatcher emits exactly three events — `contentStart` of type TOOL and
role TOOL carrying the `toolUseId`, `toolResult` carrying the
JSON-stringified handler result, and `contentEnd` — each written to the
backend stream and also enqueued on the egress queue as a copy with a
refreshed timestamp, and all three carry the same freshly generated
`contentName`. -/
theorem tool_dispatch_three_events (s0 : SessionState)
    (pn tcontent tid : Json) (name uuid dateStr : String) (t1 t2 t3 : Int)
    (hact : s0.is_active = true) (hstr : s0.stream = some ())
    (hq : s0.output_queue.length + 3 ≤ 200) :
    handle_tool_processing s0 pn (.str name) tcontent tid uuid t1 t2 t3
      dateStr =
      some
        ({ s0 with output_queue := s0.output_queue ++
            [withTimestamp (S2sEvent.content_start_tool pn (.str uuid) tid) t1,
             withTimestamp (S2sEvent.text_input_tool pn (.str uuid)
               (.str (Json.dumps
                 ((processToolUse (.str name) tcontent dateStr).getD
                   .null)))) t2,
             withTimestamp (S2sEvent.content_end pn (.str uuid)) t3] },
         [S2sEvent.content_start_tool pn (.str uuid) tid,
          S2sEvent.text_input_tool pn (.str uuid)
            (.str (Json.dumps
              ((processToolUse (.str name) tcontent dateStr).getD .null))),
          S2sEvent.content_end pn (.str uuid)]) ∧
    eventContentName (S2sEvent.content_start_tool pn (.str uuid) tid) =
      some (.str uuid) ∧
    eventContentName (S2sEvent.text_input_tool pn (.str uuid)
        (.str (Json.dumps
          ((processToolUse (.str name) tcontent dateStr).getD .null)))) =
      some (.str uuid) ∧
    eventContentName (S2sEvent.content_end pn (.str uuid)) =
      some (.str uuid) := by
  have h1 : s0.output_queue.length < 200 := by omega
  have h2 : s0.output_queue.length + 1 < 200 := by omega
  have h3 : s0.output_queue.length + 1 + 1 < 200 := by omega
  refine ⟨?_,
    by simp [eventContentName, getKey, S2sEvent.content_start_tool],
    by simp [eventContentName, getKey, S2sEvent.text_input_tool],
    by simp [eventContentName, getKey, S2sEvent.content_end]⟩
  cases tcontent <;>
    simp [handle_tool_processing, processToolUse, send_raw_event,
      put_blocking, withTimestamp, setKey, setKeyList, getKey,
      S2sEvent.content_start_tool, S2sEvent.text_input_tool,
      S2sEvent.content_end, hstr, hact, h1, h2, h3]

/-- Witness for C2: concrete dispatch of `getDateTool` on an active
session; the three emitted events share the generated `contentName`. -/
theorem tool_dispatch_three_events_witness :
    eventContentName (S2sEvent.content_start_tool (.str "p") (.str "u-1")
        (.str "t1")) = some (.str "u-1") ∧
    eventContentName (S2sEvent.text_input_tool (.str "p") (.str "u-1")
        (.str (Json.dumps
          ((processToolUse (.str "getDateTool") (.obj [])
            "Monday, 2024-01-01 00:00:00").getD .null)))) =
      some (.str "u-1") ∧
    eventContentName (S2sEvent.content_end (.str "p") (.str "u-1")) =
      some (.str "u-1") := by
  have h := tool_dispatch_three_events activeSessionState (.str "p")
    (.obj []) (.str "t1") "getDateTool" "u-1" "Monday, 2024-01-01 00:00:00"
    1 2 3 rfl rfl (by simp [activeSessionState, SessionState.init])
  exact ⟨h.2.1, h.2.2.1, h.2.2.2⟩

/-- Helper: one pump iteration on a `toolUse` envelope whose payload carries
`toolName` and `toolUseId` stores the pending tool-use record and spawns
nothing. -/
theorem step_tool_use (s : SessionState) (v tn tid : Json)
    (kvs : List (String × Json)) (ts : Int) (hv : v = .obj kvs)
    (htn : getKey v "toolName" = some tn)
    (htid : getKey v "toolUseId" = some tid) :
    process_response_step s (.value (.json (toolUseEnvelope v))) ts =
      (if s.output_queue.length < 200 then
        .cont { s with
            toolUseContent := v
            toolName := tn
            toolUseId := tid
            output_queue := s.output_queue ++
              [.obj [("event", .obj [("toolUse", v)]),
                ("timestamp", .num ts)]] } [] false
      else
        .cont { s with
            toolUseContent := v
            toolName := tn
            toolUseId := tid } [] true) := by
  subst hv
  simp only [getKey] at htn htid
  by_cases hlt : s.output_queue.length < 200 <;>
    simp [process_response_step, toolUseEnvelope, setKey, setKeyList,
      dispatch_event, getKey, htn, htid, hlt]

/-- Helper: one pump iteration on a `contentEnd` envelope of type TOOL
spawns exactly one dispatch task carrying the current pending tool-use
record, leaves the record untouched, and tracks the task. -/
theorem step_content_end_tool (s : SessionState) (pnj : Json) (ts : Int) :
    process_response_step s
        (.value (.json (contentEndToolEnvelope pnj))) ts =
      (if s.output_queue.length < 200 then
        .cont { s with
            tool_processing_tasks := s.tool_processing_tasks ++
              [⟨pnj, s.toolName, s.toolUseContent, s.toolUseId⟩]
            output_queue := s.output_queue ++
              [.obj [("event", .obj [("contentEnd", .obj [
                  ("type", .str "TOOL"), ("promptName", pnj)])]),
                ("timestamp", .num ts)]] }
          [⟨pnj, s.toolName, s.toolUseContent, s.toolUseId⟩] false
      else
        .cont { s with
            tool_processing_tasks := s.tool_processing_tasks ++
              [⟨pnj, s.toolName, s.toolUseContent, s.toolUseId⟩] }
          [⟨pnj, s.toolName, s.toolUseContent, s.toolUseId⟩] true) := by
  by_cases hlt : s.output_queue.length < 200 <;>
    simp [process_response_step, contentEndToolEnvelope, setKey, setKeyList,
      dispatch_event, getKey, hlt]

/-- Helper: a run of `n` `contentEnd(type=TOOL)` iterations spawns `n`
dispatch tasks all carrying the starting pending tool-use record, and the
record is unchanged at the end of the run. -/
theorem run_pump_content_end_spawns (n : Nat) (s : SessionState)
    (pnj : Json) (ts : Int) :
    (run_pump s (List.replicate n
        (.value (.json (contentEndToolEnvelope pnj)), ts))).2 =
      List.replicate n ⟨pnj, s.toolName, s.toolUseContent, s.toolUseId⟩ ∧
    (run_pump s (List.replicate n
        (.value (.json (contentEndToolEnvelope pnj)), ts))).1.toolName =
      s.toolName ∧
    (run_pump s (List.replicate n
        (.value (.json (contentEndToolEnvelope pnj)),
          ts))).1.toolUseContent = s.toolUseContent ∧
    (run_pump s (List.replicate n
        (.value (.json (contentEndToolEnvelope pnj)), ts))).1.toolUseId =
      s.toolUseId := by
  induction n generalizing s with
  | zero => simp [run_pump]
  | succ m ih =>
    rw [List.replicate_succ]
    by_cases hlt : s.output_queue.length < 200
    · have hstep := step_content_end_tool s pnj ts
      rw [if_pos hlt] at hstep
      have hrec := ih { s with
        tool_processing_tasks := s.tool_processing_tasks ++
          [⟨pnj, s.toolName, s.toolUseContent, s.toolUseId⟩]
        output_queue := s.output_queue ++
          [.obj [("event", .obj [("contentEnd", .obj [
              ("type", .str "TOOL"), ("promptName", pnj)])]),
            ("timestamp", .num ts)]] }
      simp only [run_pump, hstep]
      simp only at hrec
      cases hr : run_pump { s with
        tool_processing_tasks := s.tool_processing_tasks ++
          [⟨pnj, s.toolName, s.toolUseContent, s.toolUseId⟩]
        output_queue := s.output_queue ++
          [.obj [("event", .obj [("contentEnd", .obj [
              ("type", .str "TOOL"), ("promptName", pnj)])]),
            ("timestamp", .num ts)]] }
        (List.replicate m
          (.value (.json (contentEndToolEnvelope pnj)), ts)) with
      | mk s2 sps =>
        rw [hr] at hrec
        simp only at hrec
        simp [List.replicate_succ, hrec.1, hrec.2.1, hrec.2.2.1, hrec.2.2.2]
    · have hstep := step_content_end_tool s pnj ts
      rw [if_neg hlt] at hstep
      have hrec := ih { s with
        tool_processing_tasks := s.tool_processing_tasks ++
          [⟨pnj, s.toolName, s.toolUseContent, s.toolUseId⟩] }
      simp only [run_pump, hstep]
      simp only at hrec
      cases hr : run_pump { s with
        tool_processing_tasks := s.tool_processing_tasks ++
          [⟨pnj, s.toolName, s.toolUseContent, s.toolUseId⟩] }
        (List.replicate m
          (.value (.json (contentEndToolEnvelope pnj)), ts)) with
      | mk s2 sps =>
        rw [hr] at hrec
        simp only at hrec
        simp [List.replicate_succ, hrec.1, hrec.2.1, hrec.2.2.1, hrec.2.2.2]

/-- C10: the pending tool-use record survives dispatch — a `toolUse` event
followed by `n` `contentEnd(type=TOOL)` events spawns `n` dispatch tasks,
each receiving the same (promptName, toolName, toolUseContent, toolUseId),
and the record is still set afterwards; it is reset (to the empty-string
initial values) by `reset_session_state`, and by `close` from an active
state. -/
theorem pending_tool_record_persists (s0 : SessionState)
    (v tn tid pnj : Json) (kvs : List (String × Json)) (n : Nat)
    (ts0 ts1 : Int) (hv : v = .obj kvs)
    (htn : getKey v "toolName" = some tn)
    (htid : getKey v "toolUseId" = some tid) :
    (run_pump s0 ((.value (.json (toolUseEnvelope v)), ts0) ::
        List.replicate n
          (.value (.json (contentEndToolEnvelope pnj)), ts1))).2 =
      List.replicate n ⟨pnj, tn, v, tid⟩ ∧
    (run_pump s0 ((.value (.json (toolUseEnvelope v)), ts0) ::
        List.replicate n
          (.value (.json (contentEndToolEnvelope pnj)),
            ts1))).1.toolName = tn ∧
    (run_pump s0 ((.value (.json (toolUseEnvelope v)), ts0) ::
        List.replicate n
          (.value (.json (contentEndToolEnvelope pnj)),
            ts1))).1.toolUseContent = v ∧
    (run_pump s0 ((.value (.json (toolUseEnvelope v)), ts0) ::
        List.replicate n
          (.value (.json (contentEndToolEnvelope pnj)),
            ts1))).1.toolUseId = tid ∧
    (∀ s : SessionState, (reset_session_state s).toolName = .str "" ∧
      (reset_session_state s).toolUseContent = .str "" ∧
      (reset_session_state s).toolUseId = .str "") ∧
    (∀ s : SessionState, s.is_active = true →
      (close s).toolName = .str "" ∧
      (close s).toolUseContent = .str "" ∧
      (close s).toolUseId = .str "") := by
  have hconst1 : ∀ s : SessionState,
      (reset_session_state s).toolName = .str "" ∧
      (reset_session_state s).toolUseContent = .str "" ∧
      (reset_session_state s).toolUseId = .str "" :=
    fun s => ⟨rfl, rfl, rfl⟩
  have hconst2 : ∀ s : SessionState, s.is_active = true →
      (close s).toolName = .str "" ∧
      (close s).toolUseContent = .str "" ∧
      (close s).toolUseId = .str "" :=
    fun s hs => by simp [close, hs]
  have hstep := step_tool_use s0 v tn tid kvs ts0 hv htn htid
  by_cases hlt : s0.output_queue.length < 200
  · rw [if_pos hlt] at hstep
    have hrec := run_pump_content_end_spawns n { s0 with
      toolUseContent := v
      toolName := tn
      toolUseId := tid
      output_queue := s0.output_queue ++
        [.obj [("event", .obj [("toolUse", v)]),
          ("timestamp", .num ts0)]] } pnj ts1
    simp only at hrec
    cases hr : run_pump { s0 with
      toolUseContent := v
      toolName := tn
      toolUseId := tid
      output_queue := s0.output_queue ++
        [.obj [("event", .obj [("toolUse", v)]),
          ("timestamp", .num ts0)]] }
      (List.replicate n
        (.value (.json (contentEndToolEnvelope pnj)), ts1)) with
    | mk s2 sps =>
      rw [hr] at hrec
      simp only at hrec
      refine ⟨?_, ?_, ?_, ?_, hconst1, hconst2⟩ <;>
        simp [run_pump, hstep, hr, hrec.1, hrec.2.1, hrec.2.2.1,
          hrec.2.2.2]
  · rw [if_neg hlt] at hstep
    have hrec := run_pump_content_end_spawns n { s0 with
      toolUseContent := v
      toolName := tn
      toolUseId := tid } pnj ts1
    simp only at hrec
    cases hr : run_pump { s0 with
      toolUseContent := v
      toolName := tn
      toolUseId := tid }
      (List.replicate n
        (.value (.json (contentEndToolEnvelope pnj)), ts1)) with
    | mk s2 sps =>
      rw [hr] at hrec
      simp only at hrec
      refine ⟨?_, ?_, ?_, ?_, hconst1, hconst2⟩ <;>
        simp [run_pump, hstep, hr, hrec.1, hrec.2.1, hrec.2.2.1,
          hrec.2.2.2]

/-- Witness for C10: one `toolUse` then two `contentEnd(type=TOOL)` events
spawn two dispatch tasks with the same record. -/
theorem pending_tool_record_persists_witness :
    (run_pump activeSessionState
        ((.value (.json (toolUseEnvelope
            (.obj [("toolName", .str "getDateTool"),
              ("toolUseId", .str "t1")]))), 1) ::
          List.replicate 2
            (.value (.json (contentEndToolEnvelope (.str "p"))), 2))).2 =
      List.replicate 2
        ⟨.str "p", .str "getDateTool",
          .obj [("toolName", .str "getDateTool"),
            ("toolUseId", .str "t1")],
          .str "t1"⟩ :=
  (pending_tool_record_persists activeSessionState
    (.obj [("toolName", .str "getDateTool"), ("toolUseId", .str "t1")])
    (.str "getDateTool") (.str "t1") (.str "p")
    [("toolName", .str "getDateTool"), ("toolUseId", .str "t1")] 2 1 2
    rfl (by simp [getKey]) (by simp [getKey])).1
